import Mathlib

/-!
Verification of the Orders API server (`src/api/server.js`).

The file is a shallow embedding of the request-handling pipeline of the
Express server: the Joi validation schemas, the chaos (fault-injection)
middleware, and the five route handlers backed by a Sequelize `Order`
model.  The persistence store is modelled as an explicit in-memory list
of records with an auto-increment id counter, which is how Sequelize
presents the SQLite table to the handlers.  Request bodies parsed by
`express.json()` are modelled as JSON object field lists; JS numbers are
modelled as rationals.  Each handler is a pure function from the store
and the request data to the HTTP status, the response body, and the
resulting store.
-/

namespace OrdersApi

/-- JSON values, as produced by `express.json()` body parsing and stored in
the `items` column (`DataTypes.JSON`). -/
inductive JsonValue : Type where
  | null : JsonValue
  | bool : Bool → JsonValue
  | num : ℚ → JsonValue
  | str : String → JsonValue
  | arr : List JsonValue → JsonValue
  | obj : List (String × JsonValue) → JsonValue

/-- A parsed JSON request body object: its list of key/value fields
(`req.body`). -/
abbrev Payload := List (String × JsonValue)

/-- Looks a key up in a payload, mirroring JS property access `body[k]`:
`none` when the key is absent. -/
def getField (p : Payload) (k : String) : Option JsonValue :=
  (p.find? (fun kv => kv.1 == k)).map (fun kv => kv.2)

/-- Whether a JSON value is an object, as tested by `Joi.object()` for the
elements of `items`. -/
def isObjVal : JsonValue → Bool
  | .obj _ => true
  | _ => false

/-- The keys declared by `createOrderSchema` and `updateOrderSchema`;
`Joi.object` rejects any key outside this list (unknown keys are not
allowed by default). -/
def allowedKeys : List String :=
  ["customerName", "totalAmount", "status", "items"]

/-- The enumeration accepted by
`Joi.string().valid('pending', 'shipped', 'delivered', 'cancelled')`. -/
def validStatuses : List String :=
  ["pending", "shipped", "delivered", "cancelled"]

/-- The `createOrderSchema` check of `server.js`: `customerName` a string of
length at least 3, required; `totalAmount` a positive number, required;
`status` optionally one of the four enumerated values; `items` optionally
an array of objects; no unknown keys.  (Joi's convert-mode coercions of
string inputs to numbers are outside the model: payload values are already
typed JSON.) -/
def createValid (p : Payload) : Bool :=
  p.all (fun kv => allowedKeys.contains kv.1) &&
  (match getField p "customerName" with
    | some (.str s) => decide (3 ≤ s.length)
    | _ => false) &&
  (match getField p "totalAmount" with
    | some (.num q) => decide (0 < q)
    | _ => false) &&
  (match getField p "status" with
    | none => true
    | some (.str s) => validStatuses.contains s
    | some _ => false) &&
  (match getField p "items" with
    | none => true
    | some (.arr xs) => xs.all isObjVal
    | some _ => false)

/-- The `updateOrderSchema` check of `server.js`: the same per-field
constraints as `createValid` but with every field optional, plus the
`.min(1)` constraint that the payload has at least one key; no unknown
keys. -/
def updateValid (p : Payload) : Bool :=
  p.all (fun kv => allowedKeys.contains kv.1) &&
  decide (1 ≤ p.length) &&
  (match getField p "customerName" with
    | none => true
    | some (.str s) => decide (3 ≤ s.length)
    | some _ => false) &&
  (match getField p "totalAmount" with
    | none => true
    | some (.num q) => decide (0 < q)
    | some _ => false) &&
  (match getField p "status" with
    | none => true
    | some (.str s) => validStatuses.contains s
    | some _ => false) &&
  (match getField p "items" with
    | none => true
    | some (.arr xs) => xs.all isObjVal
    | some _ => false)

/-- A row of the `Orders` table as defined by `sequelize.define('Order', ...)`:
the four declared columns plus the primary key `id` and the `createdAt` /
`updatedAt` timestamps Sequelize maintains.  Timestamps are modelled as
abstract clock readings. -/
structure Order where
  id : Nat
  customerName : String
  totalAmount : ℚ
  status : String
  items : Option JsonValue
  createdAt : Nat
  updatedAt : Nat

/-- The persistence store backing the model: the table rows plus the
auto-increment counter for the next primary key. -/
structure Store where
  orders : List Order
  nextId : Nat

/-- Point lookup of a row by primary key, `Order.findByPk id`. -/
def findByPk (st : Store) (id : Nat) : Option Order :=
  st.orders.find? (fun o => o.id == id)

/-- The reachable-store invariant maintained by the auto-increment key:
every row's id is below the counter, so the counter value was never
issued before. -/
def storeInv (st : Store) : Prop :=
  ∀ o ∈ st.orders, o.id < st.nextId

/-- The row built by `Order.create(req.body)` for a validated create
payload: the supplied fields, the Sequelize `defaultValue: 'pending'` for
an omitted `status`, `NULL` (`none`) for omitted `items`, a fresh
auto-increment id, and both timestamps set to the current clock. -/
def mkOrder (st : Store) (p : Payload) (now : Nat) : Order :=
  { id := st.nextId
    customerName :=
      match getField p "customerName" with
      | some (.str s) => s
      | _ => ""
    totalAmount :=
      match getField p "totalAmount" with
      | some (.num q) => q
      | _ => 0
    status :=
      match getField p "status" with
      | some (.str s) => s
      | _ => "pending"
    items := getField p "items"
    createdAt := now
    updatedAt := now }

/-- The row produced by `order.update(req.body)`: each field supplied in
the payload is overwritten, every other field keeps its prior value, and
Sequelize refreshes `updatedAt`. -/
def updateOrder (o : Order) (p : Payload) (now : Nat) : Order :=
  { o with
    customerName :=
      match getField p "customerName" with
      | some (.str s) => s
      | _ => o.customerName
    totalAmount :=
      match getField p "totalAmount" with
      | some (.num q) => q
      | _ => o.totalAmount
    status :=
      match getField p "status" with
      | some (.str s) => s
      | _ => o.status
    items :=
      match getField p "items" with
      | some v => some v
      | none => o.items
    updatedAt := now }

/-- Response bodies produced by the handlers: a single order rendered as
JSON, a list of orders, an `\x7b error: msg \x7d` object with the given
message, a 400 validation-error object (whose message text — Joi's first
violated constraint — is not modelled), or the empty body of a 204. -/
inductive HOut where
  | jsonOrder : Order → HOut
  | jsonOrders : List Order → HOut
  | jsonError : String → HOut
  | validationError : HOut
  | empty : HOut

/-- Handler for `POST /orders`: the `validateBody(createOrderSchema)` middleware
rejects invalid payloads with 400, otherwise `Order.create` inserts a new
row and the handler answers 201 with the created record. -/
def postOrders (st : Store) (p : Payload) (now : Nat) : Nat × HOut × Store :=
  if createValid p then
    (201, .jsonOrder (mkOrder st p now),
      { orders := st.orders ++ [mkOrder st p now], nextId := st.nextId + 1 })
  else (400, .validationError, st)

/-- The `where` object built by the `GET /orders` handler: an optional
exact-match constraint on `status` and an optional
`\x7b [Op.like]: %...% \x7d` constraint on `customerName` (kept as the
wrapped substring). -/
structure WhereClause where
  status : Option String
  customerNameContains : Option String

/-- Mirrors `if (status) where.status = status` and
`if (customerName) where.customerName = { [Op.like]: ... }` from
`server.js`: a query parameter contributes a constraint exactly when it is
present and truthy, i.e. a non-empty string. -/
def buildWhere (status customerName : Option String) : WhereClause :=
  { status :=
      match status with
      | some s => if s == "" then none else some s
      | none => none
    customerNameContains :=
      match customerName with
      | some c => if c == "" then none else some c
      | none => none }

/-- Whether a row satisfies a `where` object under the store's scan
semantics: `status` compared for equality, the `LIKE '%c%'` pattern read
as substring containment of `c` in `customerName`. -/
def matchesWhere (w : WhereClause) (o : Order) : Bool :=
  (match w.status with
    | none => true
    | some s => o.status == s) &&
  (match w.customerNameContains with
    | none => true
    | some c => decide (c.data <:+: o.customerName.data))

/-- Handler for `GET /orders`: translates the two optional query parameters to a
`where` object and answers 200 with `Order.findAll({ where })`. -/
def getOrders (st : Store) (status customerName : Option String) :
    Nat × HOut :=
  (200, .jsonOrders (st.orders.filter (matchesWhere (buildWhere status customerName))))

/-- Handler for `GET /orders/:id`: point lookup, 404 when the id does not resolve. -/
def getOrderById (st : Store) (id : Nat) : Nat × HOut :=
  match findByPk st id with
  | none => (404, .jsonError "Order not found")
  | some o => (200, .jsonOrder o)

/-- Handler for `PATCH /orders/:id`: the `validateBody(updateOrderSchema)` middleware
rejects invalid payloads with 400 before the handler runs; the handler
then looks the row up (404 when absent) and otherwise merges the supplied
fields via `order.update(req.body)` and answers 200 with the updated
record. -/
def patchOrder (st : Store) (id : Nat) (p : Payload) (now : Nat) :
    Nat × HOut × Store :=
  if updateValid p then
    match findByPk st id with
    | none => (404, .jsonError "Order not found", st)
    | some o =>
      (200, .jsonOrder (updateOrder o p now),
        { orders := st.orders.map (fun x => if x.id == id then updateOrder o p now else x)
          nextId := st.nextId })
  else (400, .validationError, st)

/-- Handler for `DELETE /orders/:id`: looks the row up (404 when absent) and otherwise
removes it via `order.destroy()` and answers 204 with an empty body. -/
def deleteOrder (st : Store) (id : Nat) : Nat × HOut × Store :=
  match findByPk st id with
  | none => (404, .jsonError "Order not found", st)
  | some _ =>
    (204, .empty, { orders := st.orders.filter (fun o => o.id != id), nextId := st.nextId })

/-- A structured log event as emitted through the winston logger: the
severity level, the message, and the metadata fields passed by
`simulateChaos` (`path`, `method`, `simulated`). -/
structure LogEvent where
  level : String
  message : String
  path : String
  method : String
  simulated : Bool

/-- The three canned failure descriptors of the chaos middleware, in
declaration order. -/
def chaosErrors : List (Nat × String) :=
  [(503, "Service Unavailable: Database connection pool exhausted"),
   (504, "Gateway Timeout: Upstream service did not respond"),
   (500, "Internal Server Error: Transaction deadlock detected")]

/-- Models `errors[Math.floor(Math.random() * errors.length)]`: the descriptor
selected from `chaosErrors` by a random draw `r`.  For `r` in `[0, 1)` the
index is always in range, so the `getD` default is never consulted. -/
def chaosPick (r : ℚ) : Nat × String :=
  chaosErrors.getD (⌊r * 3⌋).toNat
    (500, "Internal Server Error: Transaction deadlock detected")

/-- The `simulateChaos` middleware, with the two `Math.random()` draws made
explicit: when the first draw is below 0.1 it picks a canned descriptor
with the second draw, logs it at `error` level with `path`, `method` and
`simulated: true`, and short-circuits with the descriptor's status and an
`error`-keyed JSON body; otherwise it calls `next()` (modelled as `none`). -/
def simulateChaos (r1 r2 : ℚ) (path method : String) :
    Option (LogEvent × Nat × JsonValue) :=
  if r1 < 1 / 10 then
    some
      ({ level := "error", message := (chaosPick r2).2, path := path,
         method := method, simulated := true },
       (chaosPick r2).1,
       .obj [("error", .str (chaosPick r2).2)])
  else none

/-! Concrete fixtures used by the witnesses below. -/

/-- A valid create payload with `status` omitted, taken from the spec's
concrete scenario. -/
def pJanet : Payload :=
  [("customerName", .str "Janet"), ("totalAmount", .num 50)]

/-- A valid one-field update payload. -/
def pShip : Payload := [("status", .str "shipped")]

/-- A concrete stored order. -/
def oJanet : Order :=
  { id := 1, customerName := "Janet", totalAmount := 50, status := "pending",
    items := none, createdAt := 0, updatedAt := 0 }

/-- The store holding just `oJanet`. -/
def stOne : Store := { orders := [oJanet], nextId := 2 }

/-- The freshly synced empty store. -/
def stEmpty : Store := { orders := [], nextId := 1 }

/-- C1: for every valid create payload, `POST /orders` answers 201 with the
full created record, whose id is the fresh auto-increment value and thus
differs from every id in the store, whose `status` is `pending` whenever
the payload omits `status`, and the auto-increment invariant is preserved
so the id is never reissued. -/
theorem create_fresh_id_and_default_status
    (st : Store) (p : Payload) (now : Nat)
    (hinv : storeInv st) (hv : createValid p = true) :
    postOrders st p now =
      (201, .jsonOrder (mkOrder st p now),
        { orders := st.orders ++ [mkOrder st p now], nextId := st.nextId + 1 }) ∧
    (mkOrder st p now).id = st.nextId ∧
    (∀ o ∈ st.orders, o.id ≠ (mkOrder st p now).id) ∧
    (getField p "status" = none → (mkOrder st p now).status = "pending") ∧
    storeInv { orders := st.orders ++ [mkOrder st p now], nextId := st.nextId + 1 } := by
  refine ⟨by simp [postOrders, hv], rfl, ?_, ?_, ?_⟩
  · intro o ho
    exact Nat.ne_of_lt (hinv o ho)
  · intro h
    simp [mkOrder, h]
  · intro o ho
    rcases List.mem_append.1 ho with h | h
    · exact Nat.lt_succ_of_lt (hinv o h)
    · rcases List.mem_singleton.1 h with rfl
      exact Nat.lt_succ_self _

/-- Witness for C1 at the empty store and the concrete payload `pJanet`. -/
theorem create_fresh_id_and_default_status_witness :
    postOrders stEmpty pJanet 7 =
      (201, .jsonOrder (mkOrder stEmpty pJanet 7),
        { orders := stEmpty.orders ++ [mkOrder stEmpty pJanet 7],
          nextId := stEmpty.nextId + 1 }) ∧
    (mkOrder stEmpty pJanet 7).id = stEmpty.nextId ∧
    (∀ o ∈ stEmpty.orders, o.id ≠ (mkOrder stEmpty pJanet 7).id) ∧
    (getField pJanet "status" = none → (mkOrder stEmpty pJanet 7).status = "pending") ∧
    storeInv { orders := stEmpty.orders ++ [mkOrder stEmpty pJanet 7],
               nextId := stEmpty.nextId + 1 } :=
  create_fresh_id_and_default_status stEmpty pJanet 7
    (by intro o ho; simp [stEmpty] at ho) (by decide)

/-- Updating never changes the auto-increment counter nor any row's id, so
the freshness invariant behind C1 survives every `PATCH`. -/
lemma patchOrder_preserves_storeInv
    (st : Store) (id : Nat) (p : Payload) (now : Nat) (h : storeInv st) :
    storeInv (patchOrder st id p now).2.2 ∧
    (patchOrder st id p now).2.2.nextId = st.nextId := by
  by_cases hv : updateValid p = true
  · cases hf : findByPk st id with
    | none =>
      have heq : patchOrder st id p now = (404, .jsonError "Order not found", st) := by
        simp [patchOrder, hv, hf]
      rw [heq]
      exact ⟨h, rfl⟩
    | some o =>
      have heq : patchOrder st id p now =
          (200, .jsonOrder (updateOrder o p now),
            { orders := st.orders.map
                (fun x => if x.id == id then updateOrder o p now else x)
              nextId := st.nextId }) := by
        simp [patchOrder, hv, hf]
      rw [heq]
      refine ⟨?_, rfl⟩
      intro y hy
      rcases List.mem_map.1 hy with ⟨x, hx, rfl⟩
      cases hxid : (x.id == id) with
      | true =>
        have ho : o ∈ st.orders := List.mem_of_find?_eq_some hf
        simpa [hxid, updateOrder] using h o ho
      | false =>
        simpa [hxid] using h x hx
  · have hv' : updateValid p = false := by simpa using hv
    have heq : patchOrder st id p now = (400, .validationError, st) := by
      simp [patchOrder, hv']
    rw [heq]
    exact ⟨h, rfl⟩

/-- Deletion never changes the auto-increment counter and only removes
rows, so the freshness invariant behind C1 survives every `DELETE`. -/
lemma deleteOrder_preserves_storeInv (st : Store) (id : Nat) (h : storeInv st) :
    storeInv (deleteOrder st id).2.2 ∧
    (deleteOrder st id).2.2.nextId = st.nextId := by
  unfold deleteOrder
  cases hf : findByPk st id with
  | none => exact ⟨h, rfl⟩
  | some o =>
    refine ⟨?_, rfl⟩
    intro y hy
    exact h y (List.mem_of_mem_filter hy)

/-- C4: a zero-field `PATCH` payload is rejected by the update schema's
`.min(1)` with a 400 before any store access: the response is the same and
the store untouched whatever the target id and store contents. -/
theorem empty_update_payload_rejected (st : Store) (id : Nat) (now : Nat) :
    patchOrder st id ([] : Payload) now = (400, .validationError, st) := rfl

/-- C6: when the id of a `PATCH` or `DELETE` does not resolve, the handler
answers 404 and returns the store unchanged — the existence check precedes
any mutating store call. -/
theorem notfound_update_delete_no_mutation
    (st : Store) (id : Nat) (p : Payload) (now : Nat)
    (h : findByPk st id = none) (hv : updateValid p = true) :
    patchOrder st id p now = (404, .jsonError "Order not found", st) ∧
    deleteOrder st id = (404, .jsonError "Order not found", st) := by
  constructor
  · simp [patchOrder, hv, h]
  · simp [deleteOrder, h]

/-- Witness for C6 at the empty store. -/
theorem notfound_update_delete_no_mutation_witness :
    patchOrder stEmpty 1 pShip 3 = (404, .jsonError "Order not found", stEmpty) ∧
    deleteOrder stEmpty 1 = (404, .jsonError "Order not found", stEmpty) :=
  notfound_update_delete_no_mutation stEmpty 1 pShip 3 rfl (by decide)

/-- C10: a payload containing any key outside the four schema keys — in
particular `id`, `createdAt` or `updatedAt` — fails both schemas, so both
`POST /orders` and `PATCH /orders/:id` answer 400 and leave the store
unchanged: a client can never set those columns through a body. -/
theorem unknown_key_rejected (p : Payload) (k : String) (v : JsonValue)
    (hk : (k, v) ∈ p) (hna : k ∉ allowedKeys) :
    createValid p = false ∧ updateValid p = false ∧
    (∀ st now, postOrders st p now = (400, .validationError, st)) ∧
    (∀ st id now, patchOrder st id p now = (400, .validationError, st)) := by
  have hall : p.all (fun kv => allowedKeys.contains kv.1) = false := by
    rw [← Bool.not_eq_true, List.all_eq_true]
    intro hc
    have hck := hc (k, v) hk
    exact hna (by simpa using hck)
  have hcv : createValid p = false := by
    unfold createValid
    rw [hall]
    simp
  have huv : updateValid p = false := by
    unfold updateValid
    rw [hall]
    simp
  refine ⟨hcv, huv, ?_, ?_⟩
  · intro st now
    simp [postOrders, hcv]
  · intro st id now
    simp [patchOrder, huv]

/-- Witness for C10 at the payload trying to set `id`. -/
theorem unknown_key_rejected_witness :
    createValid [("id", JsonValue.num 5)] = false ∧
    updateValid [("id", JsonValue.num 5)] = false ∧
    (∀ st now, postOrders st [("id", JsonValue.num 5)] now = (400, .validationError, st)) ∧
    (∀ st id now,
      patchOrder st id [("id", JsonValue.num 5)] now = (400, .validationError, st)) :=
  unknown_key_rejected [("id", .num 5)] "id" (.num 5)
    (List.mem_singleton.mpr rfl) (by decide)

/-- C5: for an existing order and a validated partial payload, `PATCH`
answers 200 with the merged record and stores it; the merged record keeps
`id` and `createdAt`, refreshes `updatedAt`, keeps every field absent from
the payload, and takes the payload value for every supplied field. -/
theorem patch_merges_only_supplied_fields
    (st : Store) (id : Nat) (p : Payload) (now : Nat) (o : Order)
    (ho : findByPk st id = some o) (hv : updateValid p = true) :
    patchOrder st id p now =
      (200, .jsonOrder (updateOrder o p now),
        { orders := st.orders.map (fun x => if x.id == id then updateOrder o p now else x)
          nextId := st.nextId }) ∧
    (updateOrder o p now).id = o.id ∧
    (updateOrder o p now).createdAt = o.createdAt ∧
    (updateOrder o p now).updatedAt = now ∧
    (getField p "customerName" = none →
      (updateOrder o p now).customerName = o.customerName) ∧
    (getField p "totalAmount" = none →
      (updateOrder o p now).totalAmount = o.totalAmount) ∧
    (getField p "status" = none → (updateOrder o p now).status = o.status) ∧
    (getField p "items" = none → (updateOrder o p now).items = o.items) ∧
    (∀ s, getField p "customerName" = some (.str s) →
      (updateOrder o p now).customerName = s) ∧
    (∀ q, getField p "totalAmount" = some (.num q) →
      (updateOrder o p now).totalAmount = q) ∧
    (∀ s, getField p "status" = some (.str s) → (updateOrder o p now).status = s) ∧
    (∀ v, getField p "items" = some v → (updateOrder o p now).items = some v) := by
  refine ⟨by simp [patchOrder, hv, ho], rfl, rfl, rfl, ?_, ?_, ?_, ?_, ?_, ?_, ?_, ?_⟩
  all_goals
    first
    | (intro x h
       simp [updateOrder, h])
    | (intro h
       simp [updateOrder, h])

/-- Witness for C5: patching `stOne` with the one-field payload `pShip`. -/
theorem patch_merges_only_supplied_fields_witness :
    patchOrder stOne 1 pShip 9 =
      (200, .jsonOrder (updateOrder oJanet pShip 9),
        { orders := stOne.orders.map
            (fun x => if x.id == 1 then updateOrder oJanet pShip 9 else x)
          nextId := stOne.nextId }) ∧
    (updateOrder oJanet pShip 9).id = oJanet.id ∧
    (updateOrder oJanet pShip 9).createdAt = oJanet.createdAt ∧
    (updateOrder oJanet pShip 9).updatedAt = 9 ∧
    (getField pShip "customerName" = none →
      (updateOrder oJanet pShip 9).customerName = oJanet.customerName) ∧
    (getField pShip "totalAmount" = none →
      (updateOrder oJanet pShip 9).totalAmount = oJanet.totalAmount) ∧
    (getField pShip "status" = none →
      (updateOrder oJanet pShip 9).status = oJanet.status) ∧
    (getField pShip "items" = none →
      (updateOrder oJanet pShip 9).items = oJanet.items) ∧
    (∀ s, getField pShip "customerName" = some (.str s) →
      (updateOrder oJanet pShip 9).customerName = s) ∧
    (∀ q, getField pShip "totalAmount" = some (.num q) →
      (updateOrder oJanet pShip 9).totalAmount = q) ∧
    (∀ s, getField pShip "status" = some (.str s) →
      (updateOrder oJanet pShip 9).status = s) ∧
    (∀ v, getField pShip "items" = some v →
      (updateOrder oJanet pShip 9).items = some v) :=
  patch_merges_only_supplied_fields stOne 1 pShip 9 oJanet rfl (by decide)

/-- C7: an id that does not resolve draws 404 from `GET`, validated `PATCH`
and `DELETE` alike; deleting an existing order answers 204 with an empty
body, after which the id no longer resolves, so a second delete of the
same id answers 404, not 204. -/
theorem unresolved_id_404_and_second_delete_404
    (st : Store) (id : Nat) (p : Payload) (now : Nat)
    (hv : updateValid p = true) :
    (findByPk st id = none →
      getOrderById st id = (404, .jsonError "Order not found") ∧
      patchOrder st id p now = (404, .jsonError "Order not found", st) ∧
      deleteOrder st id = (404, .jsonError "Order not found", st)) ∧
    (∀ o, findByPk st id = some o →
      ∃ st2, deleteOrder st id = (204, .empty, st2) ∧
        findByPk st2 id = none ∧
        getOrderById st2 id = (404, .jsonError "Order not found") ∧
        deleteOrder st2 id = (404, .jsonError "Order not found", st2)) := by
  constructor
  · intro h
    exact ⟨by simp [getOrderById, h], by simp [patchOrder, hv, h],
      by simp [deleteOrder, h]⟩
  · intro o h
    have hnone :
        findByPk
          { orders := st.orders.filter (fun x => x.id != id), nextId := st.nextId }
          id = none := by
      unfold findByPk
      rw [List.find?_eq_none]
      intro x hx
      have h2 := (List.mem_filter.1 hx).2
      simpa using h2
    exact ⟨{ orders := st.orders.filter (fun x => x.id != id), nextId := st.nextId },
      by simp [deleteOrder, h], hnone, by simp [getOrderById, hnone],
      by simp [deleteOrder, hnone]⟩

/-- Witness for C7: deleting the only order of `stOne` and deleting again. -/
theorem unresolved_id_404_and_second_delete_404_witness :
    ∃ st2, deleteOrder stOne 1 = (204, .empty, st2) ∧
      findByPk st2 1 = none ∧
      getOrderById st2 1 = (404, .jsonError "Order not found") ∧
      deleteOrder st2 1 = (404, .jsonError "Order not found", st2) :=
  (unresolved_id_404_and_second_delete_404 stOne 1 pShip 4 (by decide)).2 oJanet rfl

/-- A second stored order with a different name and status. -/
def oBob : Order :=
  { id := 2, customerName := "Bob", totalAmount := 20, status := "pending",
    items := none, createdAt := 0, updatedAt := 0 }

/-- A shipped order, used for the list-query witnesses. -/
def oShippedAnn : Order :=
  { id := 3, customerName := "Janet", totalAmount := 5, status := "shipped",
    items := none, createdAt := 0, updatedAt := 0 }

/-- A store holding a shipped and a pending order. -/
def stTwo : Store := { orders := [oShippedAnn, oBob], nextId := 4 }

/-- C2 counterexample: with the empty-string `status` parameter supplied,
the handler returns an order whose status differs from the given value, so
the status filter does not select exactly the orders whose `status` equals
the given value. -/
theorem status_filter_empty_string_counterexample :
    getOrders stOne (some "") none = (200, .jsonOrders [oJanet]) ∧
    oJanet.status ≠ "" := by
  exact ⟨rfl, by decide⟩

/-- C2 (amended): for every List query whose supplied filter values are
non-empty strings, the `status` filter selects exactly the orders whose
status equals the value, the `customerName` filter selects exactly the
orders whose name contains the value as a substring, both filters combine
conjunctively, and an absent filter imposes no constraint. -/
theorem list_filters_exact_and_substring (st : Store) (s c : String)
    (hs : s ≠ "") (hc : c ≠ "") :
    (∃ os, getOrders st (some s) (some c) = (200, .jsonOrders os) ∧
      ∀ o, o ∈ os ↔
        o ∈ st.orders ∧ o.status = s ∧ c.data <:+: o.customerName.data) ∧
    (∃ os, getOrders st (some s) none = (200, .jsonOrders os) ∧
      ∀ o, o ∈ os ↔ o ∈ st.orders ∧ o.status = s) ∧
    (∃ os, getOrders st none (some c) = (200, .jsonOrders os) ∧
      ∀ o, o ∈ os ↔ o ∈ st.orders ∧ c.data <:+: o.customerName.data) ∧
    (∃ os, getOrders st none none = (200, .jsonOrders os) ∧
      ∀ o, o ∈ os ↔ o ∈ st.orders) := by
  have hs' : (s == "") = false := by simpa using hs
  have hc' : (c == "") = false := by simpa using hc
  refine ⟨⟨_, rfl, ?_⟩, ⟨_, rfl, ?_⟩, ⟨_, rfl, ?_⟩, ⟨_, rfl, ?_⟩⟩ <;>
    intro o <;>
    simp [buildWhere, matchesWhere, hs', hc', List.mem_filter, and_assoc]

/-- Witness for C2 at the two-order store, `status=shipped`,
`customerName=an`. -/
theorem list_filters_exact_and_substring_witness :
    ∃ os, getOrders stTwo (some "shipped") (some "an") = (200, .jsonOrders os) ∧
      ∀ o, o ∈ os ↔
        o ∈ stTwo.orders ∧ o.status = "shipped" ∧
          "an".data <:+: o.customerName.data :=
  (list_filters_exact_and_substring stTwo "shipped" "an"
    (by decide) (by decide)).1

/-- C3 counterexample: with `status=` supplied as the empty string the
handler returns an order whose status is `shipped`, not the empty string,
so the empty-string parameter is not treated as a present exact-match
filter. -/
theorem empty_string_params_counterexample :
    getOrders stTwo (some "") (some "") = (200, .jsonOrders stTwo.orders) ∧
    ∀ o ∈ stTwo.orders, o.status ≠ "" := by
  exact ⟨rfl, by decide⟩

/-- C3 (amended): an absent `status` or `customerName` parameter imposes no
constraint, and an empty-string parameter is treated exactly like an
absent one — no constraint for either filter (for `customerName` this
coincides observationally with matching the empty substring) — and in
either case the request does not error: the handler always answers 200. -/
theorem empty_string_params_no_constraint (st : Store) (sQ cQ : Option String) :
    (getOrders st sQ cQ).1 = 200 ∧
    getOrders st (some "") cQ = getOrders st none cQ ∧
    getOrders st sQ (some "") = getOrders st sQ none := by
  exact ⟨rfl, rfl, rfl⟩

/-- For a selection draw in `[0, 1)` the chosen descriptor is one of the
three canned ones. -/
lemma chaosPick_mem_chaosErrors (r : ℚ) (h0 : 0 ≤ r) (h1 : r < 1) :
    chaosPick r ∈ chaosErrors := by
  have h3 : ⌊r * 3⌋ < 3 := by
    rw [Int.floor_lt]
    push_cast
    nlinarith
  have h4 : 0 ≤ ⌊r * 3⌋ := Int.floor_nonneg.mpr (by nlinarith)
  unfold chaosPick
  interval_cases h : ⌊r * 3⌋ <;> simp [chaosErrors]

/-- C8: whatever the random draws (selection draw in `[0, 1)`), the chaos
middleware either passes the request through unmodified, or — exactly when
the rate draw is below 0.1 — short-circuits with one of the three canned
descriptors and the error-keyed JSON body; no other status or message is
ever produced. -/
theorem chaos_short_circuit_descriptors (r1 r2 : ℚ) (path method : String)
    (h0 : 0 ≤ r2) (h1 : r2 < 1) :
    (¬ r1 < 1 / 10 → simulateChaos r1 r2 path method = none) ∧
    (r1 < 1 / 10 → ∃ e ∈ chaosErrors,
      simulateChaos r1 r2 path method =
        some ({ level := "error", message := e.2, path := path, method := method,
                simulated := true }, e.1, .obj [("error", .str e.2)])) := by
  constructor
  · intro h
    unfold simulateChaos
    rw [if_neg h]
  · intro h
    exact ⟨chaosPick r2, chaosPick_mem_chaosErrors r2 h0 h1,
      by unfold simulateChaos; rw [if_pos h]⟩

/-- Witness for C8 at rate draw 0 (short-circuit) and selection draw 0. -/
theorem chaos_short_circuit_descriptors_witness :
    ∃ e ∈ chaosErrors,
      simulateChaos 0 0 "/orders" "GET" =
        some ({ level := "error", message := e.2, path := "/orders",
                method := "GET", simulated := true }, e.1,
          .obj [("error", .str e.2)]) :=
  (chaos_short_circuit_descriptors 0 0 "/orders" "GET"
    (le_refl 0) (by norm_num)).2 (by norm_num)

/-- C9 counterexample: at concrete draws the short-circuit log event has
level `error`, not the claimed warning level, and carries the descriptor's
message, path, method and the `simulated` tag. -/
theorem chaos_log_level_counterexample :
    simulateChaos 0 0 "/orders" "GET" =
      some ({ level := "error",
              message := "Service Unavailable: Database connection pool exhausted",
              path := "/orders", method := "GET", simulated := true },
        503,
        .obj [("error",
          .str "Service Unavailable: Database connection pool exhausted")]) ∧
    "error" ≠ "warn" := by
  constructor
  · have hpick :
        chaosPick 0 =
          (503, "Service Unavailable: Database connection pool exhausted") := by
      unfold chaosPick
      rw [zero_mul, Int.floor_zero]
      rfl
    unfold simulateChaos
    rw [if_pos (by norm_num), hpick]
  · decide

/-- C9 (amended): every time the fault injector short-circuits a request
(selection draw in `[0, 1)`), it emits an error-level log event tagged
`simulated: true` carrying the chosen descriptor's message, the request
path and the method, and returns that descriptor's status with the
error-keyed JSON body. -/
theorem chaos_logs_error_level_simulated (r1 r2 : ℚ) (path method : String)
    (hr : r1 < 1 / 10) (h0 : 0 ≤ r2) (h1 : r2 < 1) :
    ∃ e ∈ chaosErrors,
      simulateChaos r1 r2 path method =
        some ({ level := "error", message := e.2, path := path, method := method,
                simulated := true }, e.1, .obj [("error", .str e.2)]) :=
  ⟨chaosPick r2, chaosPick_mem_chaosErrors r2 h0 h1,
    by unfold simulateChaos; rw [if_pos hr]⟩

/-- Witness for C9 at concrete draws. -/
theorem chaos_logs_error_level_simulated_witness :
    ∃ e ∈ chaosErrors,
      simulateChaos 0 0 "/o" "POST" =
        some ({ level := "error", message := e.2, path := "/o", method := "POST",
                simulated := true }, e.1, .obj [("error", .str e.2)]) :=
  chaos_logs_error_level_simulated 0 0 "/o" "POST"
    (by norm_num) (le_refl 0) (by norm_num)

end OrdersApi
